import Mathlib

/- Verification of the async_file dual-backend file-access library.

   The definitions below are a shallow embedding of the two backends:

   * `AsyncFile.Wasm` embeds src/wasm_impl.rs: the remote (HTTP) backend.
     A remote `File` is a path string plus a 64-bit cursor (`seek_pos`).
     Network interaction is represented by a `FetchOutcome` value describing
     what the fetch call delivered (transport failure, or a response with a
     status, an optional content-length header and an optional chunked body);
     each operation is a pure function of the handle and that outcome, and
     also reports the list of HTTP requests it issued.

   * `AsyncFile.StdImpl` embeds src/std_impl.rs: the local backend.  The OS
     file descriptor reached through `std::fs::File` is an external
     collaborator; it is modelled from the documented regular-file semantics
     of the read/lseek syscalls as a byte list plus a position.

   Machine integers are modelled as `Nat`/`Int` with explicit `2^64` bounds
   where the source performs checked 64-bit arithmetic. -/

set_option autoImplicit false
set_option maxRecDepth 8192

namespace AsyncFile

/-- One past the largest `u64` value, i.e. `2 ^ 64`. -/
def u64Size : Nat := 18446744073709551616

/-- `std::io::SeekFrom`: the seek origin passed to both backends.
`Start` carries a `u64` offset, `End` and `Current` carry `i64` deltas. -/
inductive SeekFrom where
  | Start (offset : Nat)
  | End (offset : Int)
  | Current (offset : Int)
deriving DecidableEq

/-- Rust `offset as u64` on an `i64`: two's-complement wrap into `[0, 2^64)`. -/
def i64AsU64 (d : Int) : Nat := (d % (u64Size : Int)).toNat

/-- Rust `u64::checked_add`: `none` exactly when the sum does not fit in 64 bits. -/
def checkedAddU64 (a b : Nat) : Option Nat :=
  if a + b < u64Size then some (a + b) else none

namespace Wasm

/-- `enum Error` from src/wasm_impl.rs (lines 101-116). -/
inductive Error where
  | Wasm (msg : String)
  | HttpStatus (code : Nat)
  | NoBody
  | NotFound
deriving DecidableEq

/-- `struct File` from src/wasm_impl.rs (lines 88-94): a path and a cursor. -/
structure File where
  path : String
  seek_pos : Nat
deriving DecidableEq

/-- `struct Data(Box<[u8]>)` from src/wasm_impl.rs (line 130). -/
structure Data where
  bytes : List Nat
deriving DecidableEq

/-- `Data::into_boxed_slice` (src/wasm_impl.rs lines 172-174): returns the
inner storage unchanged. -/
def Data.into_boxed_slice (d : Data) : List Nat := d.bytes

/-- `impl AsRef<[u8]> for Data` (src/wasm_impl.rs lines 153-157). -/
def Data.as_ref (d : Data) : List Nat := d.bytes

/-- `impl Deref for Data` (src/wasm_impl.rs lines 159-164). -/
def Data.deref (d : Data) : List Nat := d.bytes

/-- An HTTP request as assembled by the remote backend: a method and an
optional `Range: bytes=lo-hi` header. -/
structure HttpRequest where
  method : String
  url : String
  range : Option (Nat × Nat)
deriving DecidableEq

def getMethod : String := "GET"

def headMethod : String := "HEAD"

/-- What one `fetch` call delivered: a transport-level failure, or a response
carrying an HTTP status, the optional `content-length` header value, and the
optional body as the list of chunks its stream yields. -/
inductive FetchOutcome where
  | transportErr (msg : String)
  | response (status : Nat) (contentLength : Option String) (body : Option (List (List Nat)))
deriving DecidableEq

/-- `Response.ok()`: status in the inclusive range 200-299. -/
def statusOk (s : Nat) : Bool := 200 ≤ s && s ≤ 299

/-- The panic message at src/wasm_impl.rs line 323. -/
def seekEndPanicMsg : String := "SeekFrom::End is not supported in WASM"

/-- The error message at src/wasm_impl.rs line 328. -/
def currentOverflowMsg : String := "SeekFrom::Current overflow"

/-- Result of `File::seek`: an `Ok` position, an `Err` value, or a panic
(process abort, not a returned value). -/
inductive SeekOutcome where
  | ok (pos : Nat)
  | err (e : Error)
  | panicked (msg : String)
deriving DecidableEq

/-- `true` exactly on the `err` outcome: the operation failed by *returning*
a recoverable error value. -/
def SeekOutcome.isErrValue : SeekOutcome → Bool
  | .err _ => true
  | _ => false

/-- `true` exactly on the panic outcome. -/
def SeekOutcome.isPanic : SeekOutcome → Bool
  | .panicked _ => true
  | _ => false

/-- Full observation of one `File::seek` call: its outcome, the handle
afterwards, and the HTTP requests it issued. -/
structure SeekResult where
  outcome : SeekOutcome
  file : File
  requests : List HttpRequest
deriving DecidableEq

/-- `File::seek` from src/wasm_impl.rs (lines 312-332).  `Start` stores the
offset; `End` panics; `Current` computes `seek_pos.checked_add(offset as u64)`
(the `i64` delta is two's-complement cast to `u64` *before* the checked add),
errors with `Error::Wasm` on `None` leaving the cursor unchanged, and stores
the sum otherwise.  The body performs no fetch call. -/
def File.seek (f : File) (pos : SeekFrom) : SeekResult :=
  match pos with
  | .Start offset =>
      { outcome := .ok offset, file := { f with seek_pos := offset }, requests := [] }
  | .End _ =>
      { outcome := .panicked seekEndPanicMsg, file := f, requests := [] }
  | .Current offset =>
      match checkedAddU64 f.seek_pos (i64AsU64 offset) with
      | some p => { outcome := .ok p, file := { f with seek_pos := p }, requests := [] }
      | none => { outcome := .err (Error.Wasm currentOverflowMsg), file := f, requests := [] }

/-- The chunk-accumulation loop of `File::read` (src/wasm_impl.rs lines
262-285), returning the accumulated bytes and the number of chunk-yielding
pulls performed.  Each iteration pulls the next chunk, computes
`read_more = buf_size - data.len()` and `read_more_src = min(chunk_len,
read_more)`, and appends `chunk.slice(0, read_more_src)`; the loop exits only
when the stream is exhausted (`value` undefined). -/
def readLoopT (bufSize : Nat) : List Nat → List (List Nat) → List Nat × Nat
  | data, [] => (data, 0)
  | data, chunk :: rest =>
      let readMore := bufSize - data.length
      let readMoreSrc := min chunk.length readMore
      let r := readLoopT bufSize (data ++ chunk.take readMoreSrc) rest
      (r.1, r.2 + 1)

/-- The bytes accumulated by the read loop starting from an empty accumulator. -/
def readLoopData (bufSize : Nat) (chunks : List (List Nat)) : List Nat :=
  (readLoopT bufSize [] chunks).1

/-- The number of chunks the read loop pulls, starting from an empty accumulator. -/
def readPulls (bufSize : Nat) (chunks : List (List Nat)) : Nat :=
  (readLoopT bufSize [] chunks).2

/-- Modelled from the spec's words for the read loop, for comparison with the
source embedding `readLoopT`: pull chunks, appending each to the accumulator,
"until either the accumulator reaches `size` bytes or the stream signals
completion - whichever comes first"; i.e. no further chunk is pulled once the
accumulator holds `size` bytes. -/
def specEarlyStopPulls (bufSize : Nat) : Nat → List (List Nat) → Nat
  | _, [] => 0
  | acc, chunk :: rest =>
      if bufSize ≤ acc then 0
      else 1 + specEarlyStopPulls bufSize (acc + chunk.length) rest

/-- Result of `File::read`: the produced `Data`, or a panic.  In the source
every failure inside the read task (transport error, bad status, missing
body) reaches the final `.unwrap()` at line 286 and aborts, carrying the
`Error` that was produced. -/
inductive ReadOutcome where
  | ok (d : Data)
  | panickedErr (e : Error)
deriving DecidableEq

/-- Full observation of one `File::read` call. -/
structure ReadResult where
  outcome : ReadOutcome
  file : File
  requests : List HttpRequest
deriving DecidableEq

/-- `File::read` from src/wasm_impl.rs (lines 242-290).  It issues one GET
with header `Range: bytes=seek_pos-(seek_pos+buf_size)`; a transport failure,
a non-success status (`Error::HttpStatus`) or a missing body (`Error::NoBody`)
is unwrapped into a panic at line 286; otherwise the body's chunks are
accumulated by the loop.  `read` takes `&self`: the handle, and in
particular `seek_pos`, cannot be and is not modified. -/
def File.read (f : File) (bufSize : Nat) (fetch : FetchOutcome) : ReadResult :=
  let req : HttpRequest :=
    { method := getMethod, url := f.path, range := some (f.seek_pos, f.seek_pos + bufSize) }
  let outcome : ReadOutcome :=
    match fetch with
    | .transportErr m => .panickedErr (Error.Wasm m)
    | .response status _ body =>
        if statusOk status then
          match body with
          | none => .panickedErr Error.NoBody
          | some chunks => .ok ⟨readLoopData bufSize chunks⟩
        else .panickedErr (Error.HttpStatus status)
  { outcome := outcome, file := f, requests := [req] }

/-- Rust `str::parse::<u64>`: an optional leading `+`, then one or more ASCII
digits whose value fits in 64 bits; anything else fails. -/
def charDigit (c : Char) : Option Nat :=
  if '0' ≤ c ∧ c ≤ '9' then some (c.toNat - '0'.toNat) else none

/-- Digit-list accumulator for `parseU64`. -/
def parseU64Core (cs : List Char) : Option Nat :=
  if cs = [] then none
  else
    cs.foldl
      (fun acc c =>
        match acc, charDigit c with
        | some a, some d => if a * 10 + d < u64Size then some (a * 10 + d) else none
        | _, _ => none)
      (some 0)

/-- `str::parse::<u64>` on the header string. -/
def parseU64 (s : String) : Option Nat :=
  match s.toList with
  | [] => none
  | '+' :: rest => parseU64Core rest
  | cs => parseU64Core cs

/-- Result of `File::metadata`: a length, a returned `Err` value, or a panic. -/
inductive MetadataOutcome where
  | ok (len : Nat)
  | err (e : Error)
  | panicked
deriving DecidableEq

/-- `File::metadata` from src/wasm_impl.rs (lines 354-376).  It issues one
HEAD request; a transport failure hits the `.unwrap()` at line 362 (panic); a
non-success status returns `Err(Error::HttpStatus)`; otherwise the
`content-length` header is read and `.map(parse().unwrap()).unwrap()`-ed, so
an absent header (outer unwrap on `None`) or a non-numeric header (inner
unwrap on the parse result) panics, and a numeric header becomes the
`Metadata` length. -/
def File.metadata (f : File) (fetch : FetchOutcome) : MetadataOutcome × List HttpRequest :=
  let req : HttpRequest := { method := headMethod, url := f.path, range := none }
  let outcome : MetadataOutcome :=
    match fetch with
    | .transportErr _ => .panicked
    | .response status contentLength _ =>
        if statusOk status then
          match contentLength with
          | none => .panicked
          | some s =>
              match parseU64 s with
              | none => .panicked
              | some n => .ok n
        else .err (Error.HttpStatus status)
  (outcome, [req])

/-- `exists` from src/wasm_impl.rs (lines 507-534), named `fileExists` here
because `exists` is reserved in Lean.  It issues one HEAD request and returns
`response.ok()` on a delivered response and `false` on any transport failure;
it has no error return at all. -/
def fileExists (fetch : FetchOutcome) : Bool :=
  match fetch with
  | .transportErr _ => false
  | .response status _ _ => statusOk status

end Wasm

namespace StdImpl

/-- `enum Error` from src/std_impl.rs (lines 142-147): wraps `std::io::Error`,
modelled as an opaque message. -/
inductive Error where
  | Io (msg : String)
deriving DecidableEq

/-- `struct Data(Box<[u8]>)` from src/std_impl.rs (line 191). -/
structure Data where
  bytes : List Nat
deriving DecidableEq

/-- `Data::into_boxed_slice` (src/std_impl.rs lines 348-351). -/
def Data.into_boxed_slice (d : Data) : List Nat := d.bytes

/-- `impl AsRef<[u8]> for Data` (src/std_impl.rs lines 259-282). -/
def Data.as_ref (d : Data) : List Nat := d.bytes

/-- `impl Deref for Data` (src/std_impl.rs lines 284-315). -/
def Data.deref (d : Data) : List Nat := d.bytes

/-- The OS regular file reached through the `Arc<std::fs::File>` of
`struct File` (src/std_impl.rs line 112): byte contents plus the kernel file
position.  The descriptor itself is an external collaborator; its read/seek
behaviour below is the documented regular-file syscall semantics. -/
structure FsFile where
  content : List Nat
  pos : Nat
deriving DecidableEq

/-- `File::read` from src/std_impl.rs (lines 366-383) on its success path:
allocate `vec![0; buf_size]`, let the blocking read syscall fill the first
`n = min buf_size (content.length - pos)` bytes (regular-file semantics,
advancing the kernel position by `n`), `truncate(n)`, and wrap as `Data`. -/
def File.read (f : FsFile) (bufSize : Nat) : Data × FsFile :=
  let n := min bufSize (f.content.length - f.pos)
  let buf := (f.content.drop f.pos).take n ++ List.replicate (bufSize - n) 0
  (⟨buf.take n⟩, { f with pos := f.pos + n })

/-- `File::seek` from src/std_impl.rs (lines 385-401): delegates to the
lseek syscall, whose documented semantics are: `Start` sets the position
absolutely; `Current`/`End` add a signed delta to the position / the file
length, failing (`Err`, modelled `none`) when the result would be negative
or exceed 64 bits, and leaving the position unchanged in that case.
Positions beyond end-of-file are allowed. -/
def File.seek (f : FsFile) (pos : SeekFrom) : Option (Nat × FsFile) :=
  match pos with
  | .Start offset => some (offset, { f with pos := offset })
  | .Current delta =>
      let r : Int := (f.pos : Int) + delta
      if 0 ≤ r ∧ r < (u64Size : Int) then some (r.toNat, { f with pos := r.toNat }) else none
  | .End delta =>
      let r : Int := (f.content.length : Int) + delta
      if 0 ≤ r ∧ r < (u64Size : Int) then some (r.toNat, { f with pos := r.toNat }) else none

/-- `exists` from src/std_impl.rs (lines 448-452), named `fileExists` here
because `exists` is reserved in Lean: it returns `Path::exists`, i.e. the
filesystem's presence answer for the path, and has no error return. -/
def fileExists (presence : String → Bool) (path : String) : Bool := presence path

end StdImpl

namespace Lib

/-- The backend variant selected at compile time by the `cfg` in src/lib.rs
(lines 206-217): exactly one of the two `sys::Data` types. -/
inductive SysData where
  | std (d : StdImpl.Data)
  | wasm (d : Wasm.Data)
deriving DecidableEq

/-- Backend dispatch of `sys::Data::into_boxed_slice`. -/
def SysData.into_boxed_slice : SysData → List Nat
  | .std d => d.into_boxed_slice
  | .wasm d => d.into_boxed_slice

/-- Backend dispatch of `sys::Data::as_ref`. -/
def SysData.as_ref : SysData → List Nat
  | .std d => d.as_ref
  | .wasm d => d.as_ref

/-- Backend dispatch of the `Deref` impl on `sys::Data`. -/
def SysData.deref : SysData → List Nat
  | .std d => d.deref
  | .wasm d => d.deref

/-- `pub struct Data(sys::Data)` from src/lib.rs (line 287). -/
structure Data where
  inner : SysData
deriving DecidableEq

/-- `Data::into_boxed_slice` from src/lib.rs (lines 336-338): delegates. -/
def Data.into_boxed_slice (d : Data) : List Nat := d.inner.into_boxed_slice

/-- `impl AsRef<[u8]> for Data` from src/lib.rs (lines 289-293): delegates. -/
def Data.as_ref (d : Data) : List Nat := d.inner.as_ref

/-- `impl Deref for Data` from src/lib.rs (lines 294-299): delegates. -/
def Data.deref (d : Data) : List Nat := d.inner.deref

end Lib

/-- A concrete path used in closed evaluation theorems. -/
def testPath : String := "5MB.zip"

end AsyncFile

/- Helper lemmas about the embedded read loop and the local read. -/

namespace AsyncFile

namespace Wasm

theorem readLoopT_fst (bufSize : Nat) :
    ∀ (chunks : List (List Nat)) (data : List Nat), data.length ≤ bufSize →
      (readLoopT bufSize data chunks).1 = data ++ (chunks.flatten).take (bufSize - data.length) := by
  intro chunks
  induction chunks with
  | nil => intro data _; simp [readLoopT]
  | cons chunk rest ih =>
    intro data h
    have hm : (data ++ chunk.take (min chunk.length (bufSize - data.length))).length ≤ bufSize := by
      simp only [List.length_append, List.length_take]
      omega
    simp only [readLoopT]
    rw [ih _ hm]
    simp only [List.flatten_cons, List.take_append_eq_append_take, List.length_append,
      List.length_take, List.append_assoc]
    congr 1
    congr 1
    · exact List.take_eq_take.mpr (by omega)
    · congr 1
      omega

theorem readLoopT_snd (bufSize : Nat) :
    ∀ (chunks : List (List Nat)) (data : List Nat),
      (readLoopT bufSize data chunks).2 = chunks.length := by
  intro chunks
  induction chunks with
  | nil => intro data; rfl
  | cons chunk rest ih =>
    intro data
    simp only [readLoopT, List.length_cons]
    rw [ih]

theorem readLoopData_eq (bufSize : Nat) (chunks : List (List Nat)) :
    readLoopData bufSize chunks = (chunks.flatten).take bufSize := by
  unfold readLoopData
  rw [readLoopT_fst bufSize chunks [] (by simp)]
  simp

theorem readPulls_eq (bufSize : Nat) (chunks : List (List Nat)) :
    readPulls bufSize chunks = chunks.length := by
  unfold readPulls
  rw [readLoopT_snd]

end Wasm

namespace StdImpl

theorem read_bytes (f : FsFile) (bufSize : Nat) :
    (File.read f bufSize).1.bytes = (f.content.drop f.pos).take bufSize := by
  have hlen : ((f.content.drop f.pos).take (min bufSize (f.content.length - f.pos))).length
      = min bufSize (f.content.length - f.pos) := by
    simp only [List.length_take, List.length_drop]
    omega
  simp only [File.read, List.take_append_eq_append_take, hlen, Nat.sub_self, List.take_zero,
    List.append_nil, List.take_take, Nat.min_self]
  exact List.take_eq_take.mpr (by simp only [List.length_drop]; omega)

theorem read_length (f : FsFile) (bufSize : Nat) :
    (File.read f bufSize).1.bytes.length = min bufSize (f.content.length - f.pos) := by
  rw [read_bytes]
  simp only [List.length_take, List.length_drop]

end StdImpl

end AsyncFile

namespace AsyncFile

/-- A non-numeric `content-length` header value used in evaluation theorems. -/
def nonNumericHeader : String := "abc"

/-- A numeric `content-length` header value used in evaluation theorems. -/
def numericHeader : String := "123"

/-- Claim C2 (code evaluated at the failing inputs): on the remote backend,
`seek(Current(d))` casts the `i64` delta to `u64` *before* the checked add,
so a backward seek whose true result is ≥ 0 (cursor 100, delta -100)
*fails* with the overflow error leaving the cursor at 100, while a seek
whose true result is negative (cursor 0, delta -1) *succeeds* with the
wrapped cursor `2^64 - 1`; a forward seek behaves as the claim says.  The
claim states exactly the opposite for the two negative-delta cases. -/
theorem seek_current_negative_delta_observed :
    Wasm.File.seek ⟨testPath, 100⟩ (SeekFrom.Current (-100)) =
      { outcome := Wasm.SeekOutcome.err (Wasm.Error.Wasm Wasm.currentOverflowMsg),
        file := ⟨testPath, 100⟩, requests := [] } ∧
    Wasm.File.seek ⟨testPath, 0⟩ (SeekFrom.Current (-1)) =
      { outcome := Wasm.SeekOutcome.ok 18446744073709551615,
        file := ⟨testPath, 18446744073709551615⟩, requests := [] } ∧
    Wasm.File.seek ⟨testPath, 0⟩ (SeekFrom.Current 100) =
      { outcome := Wasm.SeekOutcome.ok 100, file := ⟨testPath, 100⟩, requests := [] } := by
  refine ⟨rfl, rfl, rfl⟩

/-- Claim C3 (code evaluated on the spec's seek sequence): on the local
backend the sequence `seek(Start(0))`, `seek(Current(100))`,
`seek(Current(-100))` succeeds and the final call returns offset 0 (shown
on a concrete file state); on the remote backend the first two
calls succeed but the third returns the overflow `Err` instead of `Ok(0)`,
so the spec's property fails there. -/
theorem seek_sequence_returns_to_zero_observed :
    StdImpl.File.seek ⟨[], 5⟩ (SeekFrom.Start 0) = some (0, ⟨[], 0⟩) ∧
    StdImpl.File.seek ⟨[], 0⟩ (SeekFrom.Current 100) = some (100, ⟨[], 100⟩) ∧
    StdImpl.File.seek ⟨[], 100⟩ (SeekFrom.Current (-100)) = some (0, ⟨[], 0⟩) ∧
    (Wasm.File.seek ⟨testPath, 0⟩ (SeekFrom.Start 0)).outcome = Wasm.SeekOutcome.ok 0 ∧
    (Wasm.File.seek ⟨testPath, 0⟩ (SeekFrom.Current 100)).outcome = Wasm.SeekOutcome.ok 100 ∧
    (Wasm.File.seek ⟨testPath, 100⟩ (SeekFrom.Current (-100))).outcome =
      Wasm.SeekOutcome.err (Wasm.Error.Wasm Wasm.currentOverflowMsg) := by
  refine ⟨by decide, by decide, by decide, rfl, rfl, rfl⟩

/-- Claim C4 counterexample: a remote `seek(End(0))` at cursor 0 does not
return the unsupported-operation error value — it panics (a process abort),
so the "recoverable error, not a process abort" part of the claim is false. -/
theorem seek_end_error_value_counterexample :
    (Wasm.File.seek ⟨testPath, 0⟩ (SeekFrom.End 0)).outcome.isErrValue = false ∧
    (Wasm.File.seek ⟨testPath, 0⟩ (SeekFrom.End 0)).outcome =
      Wasm.SeekOutcome.panicked Wasm.seekEndPanicMsg := by
  refine ⟨rfl, rfl⟩

/-- Claim C4 as amended: for every remote handle and every offset,
`seek(End(offset))` fails fast by panicking (the `panic!` at
src/wasm_impl.rs line 323) rather than returning an error value, leaves the
handle unchanged, and never issues a network request. -/
theorem seek_end_always_panics_no_request :
    ∀ (f : Wasm.File) (offset : Int),
      Wasm.File.seek f (SeekFrom.End offset) =
        { outcome := Wasm.SeekOutcome.panicked Wasm.seekEndPanicMsg,
          file := f, requests := [] } := by
  intro f offset
  rfl

/-- Claim C5 (code evaluated at the failing inputs): remote `metadata()`
issues one HEAD request and returns the parsed `content-length` as the
`Metadata` length when the header is numeric, and returns `Err(HttpStatus)`
on a non-success status — but when the header is absent or non-numeric it
panics (the `unwrap()`s at src/wasm_impl.rs lines 367-370) instead of
returning an error value to the caller as the claim (and the function's own
doc comment) states. -/
theorem metadata_header_handling_observed :
    (Wasm.File.metadata ⟨testPath, 0⟩ (Wasm.FetchOutcome.response 200 none none)).1 =
      Wasm.MetadataOutcome.panicked ∧
    (Wasm.File.metadata ⟨testPath, 0⟩
        (Wasm.FetchOutcome.response 200 (some nonNumericHeader) none)).1 =
      Wasm.MetadataOutcome.panicked ∧
    (Wasm.File.metadata ⟨testPath, 0⟩
        (Wasm.FetchOutcome.response 200 (some numericHeader) none)).1 =
      Wasm.MetadataOutcome.ok 123 ∧
    (Wasm.File.metadata ⟨testPath, 0⟩ (Wasm.FetchOutcome.response 404 none none)).1 =
      Wasm.MetadataOutcome.err (Wasm.Error.HttpStatus 404) ∧
    (Wasm.File.metadata ⟨testPath, 0⟩
        (Wasm.FetchOutcome.response 200 (some numericHeader) none)).2 =
      [{ method := Wasm.headMethod, url := testPath, range := none }] := by
  refine ⟨by decide, by decide, by decide, by decide, by decide⟩

/-- Claim C6: on both backends a successful `read(size)` returns a buffer of
length ≤ `size`, with equality exactly unless the resource (the delivered
stream on the remote backend, the bytes after the position on the local one)
ran out first; the short read is delivered as a success, not an error. -/
theorem read_length_bounds :
    ∀ (f : Wasm.File) (size : Nat) (chunks : List (List Nat)) (st : StdImpl.FsFile),
      (Wasm.File.read f size (Wasm.FetchOutcome.response 200 none (some chunks))).outcome =
        Wasm.ReadOutcome.ok ⟨(chunks.flatten).take size⟩ ∧
      ((chunks.flatten).take size).length ≤ size ∧
      ((chunks.flatten).take size).length = min size chunks.flatten.length ∧
      (StdImpl.File.read st size).1.bytes.length ≤ size ∧
      (StdImpl.File.read st size).1.bytes.length = min size (st.content.length - st.pos) := by
  intro f size chunks st
  refine ⟨?_, ?_, ?_, ?_, ?_⟩
  · have h : (Wasm.File.read f size
        (Wasm.FetchOutcome.response 200 none (some chunks))).outcome =
        Wasm.ReadOutcome.ok ⟨Wasm.readLoopData size chunks⟩ := rfl
    rw [h, Wasm.readLoopData_eq]
  · simp only [List.length_take]
    exact Nat.min_le_left _ _
  · simp only [List.length_take]
  · rw [StdImpl.read_length]
    exact Nat.min_le_left _ _
  · exact StdImpl.read_length st size

/-- Claim C7 counterexample: with `size = 2` and a stream delivering chunks
`[1,2]` then `[3]`, the accumulator already holds 2 = `size` bytes after the
first pull, yet the source loop pulls 2 chunks in total, where the spec's
"stop as soon as the accumulator reaches size bytes" loop pulls only 1. -/
theorem read_loop_extra_pull_counterexample :
    Wasm.readPulls 2 [[1, 2], [3]] = 2 ∧
    Wasm.specEarlyStopPulls 2 0 [[1, 2], [3]] = 1 := by
  refine ⟨by decide, by decide⟩

/-- Claim C7 as amended: the accumulation loop keeps pulling chunks until the
stream signals completion, regardless of whether `size` bytes have already
been accumulated; each pulled chunk contributes only up to the remaining
capacity, so the accumulated data is still exactly the first
`min size total` bytes of the stream. -/
theorem read_loop_pulls_all_chunks :
    ∀ (size : Nat) (chunks : List (List Nat)),
      Wasm.readPulls size chunks = chunks.length ∧
      Wasm.readLoopData size chunks = (chunks.flatten).take size := by
  intro size chunks
  exact ⟨Wasm.readPulls_eq size chunks, Wasm.readLoopData_eq size chunks⟩

/-- Claim C8: a remote `read` leaves the handle — in particular its cursor —
exactly as it was before the read (`read` takes `&self` and never writes
`seek_pos`), for every handle, size and delivered fetch outcome; advancing
the cursor requires an explicit `seek`, which does update it. -/
theorem read_preserves_cursor :
    ∀ (f : Wasm.File) (size : Nat) (fetch : Wasm.FetchOutcome) (p : Nat),
      (Wasm.File.read f size fetch).file = f ∧
      (Wasm.File.read f size fetch).file.seek_pos = f.seek_pos ∧
      (Wasm.File.seek f (SeekFrom.Start p)).file.seek_pos = p := by
  intro f size fetch p
  exact ⟨rfl, rfl, rfl⟩

/-- Claim C9: `exists` returns a plain boolean with no error return: on the
remote backend a transport failure maps to `false`, a delivered response
maps to `false` exactly when its status is outside the 2xx success range and
to `true` when inside it, and on the local backend it returns the
filesystem's presence answer for the path. -/
theorem exists_status_mapping :
    (∀ (m : String), Wasm.fileExists (Wasm.FetchOutcome.transportErr m) = false) ∧
    (∀ (s : Nat) (cl : Option String) (b : Option (List (List Nat))),
      Wasm.statusOk s = false → Wasm.fileExists (Wasm.FetchOutcome.response s cl b) = false) ∧
    (∀ (s : Nat) (cl : Option String) (b : Option (List (List Nat))),
      Wasm.statusOk s = true → Wasm.fileExists (Wasm.FetchOutcome.response s cl b) = true) ∧
    (∀ (presence : String → Bool) (p : String), StdImpl.fileExists presence p = presence p) := by
  refine ⟨fun m => rfl, fun s cl b h => ?_, fun s cl b h => ?_, fun presence p => rfl⟩
  · simpa [Wasm.fileExists] using h
  · simpa [Wasm.fileExists] using h

/-- Witness for claim C9: a 404 response yields `false`, a 200 response
yields `true`, a transport failure yields `false`. -/
theorem exists_status_mapping_witness :
    Wasm.fileExists (Wasm.FetchOutcome.response 404 none none) = false ∧
    Wasm.fileExists (Wasm.FetchOutcome.response 200 none none) = true ∧
    Wasm.fileExists (Wasm.FetchOutcome.transportErr testPath) = false :=
  ⟨exists_status_mapping.2.1 404 none none (by decide),
   exists_status_mapping.2.2.1 200 none none (by decide),
   exists_status_mapping.1 testPath⟩

/-- Claim C10: on every backend, and through the facade wrapper,
`Data::into_boxed_slice` yields exactly the bytes exposed by
`as_ref`/`deref` — same contents, same length; the conversion never
truncates, pads or alters bytes. -/
theorem into_boxed_slice_preserves_bytes :
    ∀ (d : StdImpl.Data) (w : Wasm.Data) (l : Lib.Data),
      d.into_boxed_slice = d.as_ref ∧ d.into_boxed_slice = d.deref ∧
      w.into_boxed_slice = w.as_ref ∧ w.into_boxed_slice = w.deref ∧
      l.into_boxed_slice = l.as_ref ∧ l.into_boxed_slice = l.deref ∧
      l.into_boxed_slice.length = l.as_ref.length := by
  intro d w l
  obtain ⟨sd⟩ := l
  cases sd
  · exact ⟨rfl, rfl, rfl, rfl, rfl, rfl, rfl⟩
  · exact ⟨rfl, rfl, rfl, rfl, rfl, rfl, rfl⟩

end AsyncFile
